import Mathlib

/-!
A verification development for `daily_arxiv.py`: a shallow embedding of the
record normalizer (`ArXivPaper.__init__` / `get_repo_url` / `to_dict`), the
store merger (`update_json_file`) and the navigation-page renderer
(`json_to_html`), together with theorems about merge semantics, ordering,
escaping and error handling.

Python `dict`s are modelled as insertion-ordered association lists, which is
exactly the observable behaviour of `dict` since Python 3.7: updating a
present key keeps its position, inserting a fresh key appends it.
-/

namespace DailyArxiv

/-- A Python `dict` with `String` keys: an insertion-ordered association list. -/
abbrev Dict (α : Type) : Type := List (String × α)

/-- Python `d.get(k)` (as an option): the value at the first entry whose key is `k`. -/
def Dict.get? {α : Type} : Dict α → String → Option α
  | [], _ => none
  | p :: d, k => if p.1 = k then some p.2 else Dict.get? d k

/-- Python `k in d`: exactly when lookup succeeds. -/
def Dict.containsKey {α : Type} (d : Dict α) (k : String) : Bool :=
  (Dict.get? d k).isSome

/-- Python `d.get(k, v)`: lookup with a default. -/
def Dict.getD {α : Type} (d : Dict α) (k : String) (v : α) : α :=
  (Dict.get? d k).getD v

/-- Python `d[k] = v`: replace the entry in place when the key is present
(keeping its position), append a fresh entry at the end otherwise. A dict
parsed from JSON or built by these operations never holds a key twice, so
replacing the first occurrence is replacing the occurrence. -/
def Dict.set {α : Type} : Dict α → String → α → Dict α
  | [], k, v => [(k, v)]
  | p :: d, k, v => if p.1 = k then (k, v) :: d else p :: Dict.set d k v

/-- Python `list(d.keys())` in iteration order. -/
def Dict.keys {α : Type} (d : Dict α) : List String :=
  d.map Prod.fst

/-- Code-point comparison of strings as lists of characters, exactly Python's
lexicographic `<=` on `str` (Python compares code points). -/
def charListLe : List Char → List Char → Bool
  | [], _ => true
  | _ :: _, [] => false
  | a :: as, b :: bs =>
    if a.toNat < b.toNat then true
    else if b.toNat < a.toNat then false
    else charListLe as bs

/-- Python `a <= b` on strings (used through `sorted(..., reverse=True)`). -/
def dateLe (a b : String) : Bool :=
  charListLe a.data b.data

/-- Python `s.replace(old, new)` for a single-character pattern and a
single-character replacement (the only uses in the source are
`replace("\n", " ")`, `replace("-", ".")` and `replace(".", "-")`). -/
def replaceChar (s : String) (a b : Char) : String :=
  ⟨s.data.map (fun c => if c == a then b else c)⟩

/-- Python `s.split(sep)[0]` for the single-character separator `"v"`: the characters
strictly before the first occurrence of `a` (the whole string when `a` does
not occur). -/
def takeUntilChar (s : String) (a : Char) : String :=
  ⟨s.data.takeWhile (fun c => c != a)⟩

/-- A record as stored in the JSON store (the shape produced by
`ArXivPaper.to_dict`, lines 44-58). `repo_url` is an `Option` so that a
persisted record whose mapping lacks the `"repo_url"` key can be modelled
(`none`); `to_dict` itself always writes the key. -/
structure PaperDict where
  paper_id : String
  code_url : String
  paper_key : String
  paper_title : String
  paper_url : String
  paper_abstract : String
  paper_authors : List String
  primary_category : String
  publish_time : String
  update_time : String
  comments : Option String
  repo_url : Option String
deriving DecidableEq

/-- The data `ArXivPaper.__init__` reads from an `arxiv.Result`. Dates are
already at calendar-date granularity (the source stores
`str(paper_item.published.date())`). -/
structure RawResult where
  short_id : String
  title : String
  entry_id : String
  summary : String
  authors : List String
  primary_category : String
  published_date : String
  updated_date : String
  comment : Option String
deriving DecidableEq

/-- The observable outcome of `requests.get(self.code_url).json()` inside
`get_repo_url` (lines 31-39):
* `failure`: the request or JSON decoding raised (network error, non-JSON
  response, timeout, ...);
* `missingOfficial`: a JSON object without an `"official"` key;
* `falsyOfficial`: an `"official"` key whose value is falsy (`None`, `{}`,
  `False`, ...), so `r["official"]` fails the truthiness test;
* `malformedOfficial`: a truthy `"official"` value for which the access
  `r["official"]["url"]` itself raises (caught by the same handler);
* `official url`: a truthy `"official"` object carrying its `"url"` field. -/
inductive ResolverResult where
  | failure
  | missingOfficial
  | falsyOfficial
  | malformedOfficial
  | official (url : String)
deriving DecidableEq

/-- Method `ArXivPaper.get_repo_url` (lines 31-39): `repo_url` starts as `"#"`, is
replaced by `r["official"]["url"]` only when the response carries a truthy
`"official"` object with a readable `"url"`, and every exception is caught,
leaving `"#"`. -/
def get_repo_url : ResolverResult → String
  | .failure => "#"
  | .missingOfficial => "#"
  | .falsyOfficial => "#"
  | .malformedOfficial => "#"
  | .official url => url

/-- Class attribute `ArXivPaper.base_url` (line 13). -/
def base_url : String := "https://arxiv.paperswithcode.com/api/v0/papers/"

/-- The normalized in-memory record (`ArXivPaper`, lines 12-29). -/
structure ArXivPaper where
  paper_id : String
  code_url : String
  paper_key : String
  paper_title : String
  paper_url : String
  paper_abstract : String
  paper_authors : List String
  primary_category : String
  publish_time : String
  update_time : String
  comments : Option String
  repo_url : String
deriving DecidableEq

/-- Constructor `ArXivPaper.__init__` (lines 15-29), with the resolver call's outcome
passed explicitly. `paper_key` is `paper_id.split("v")[0]` (line 19) and the
abstract has its newlines collapsed to spaces (line 22). -/
def makePaper (item : RawResult) (resolved : ResolverResult) : ArXivPaper :=
  { paper_id := item.short_id
    code_url := base_url ++ item.short_id
    paper_key := takeUntilChar item.short_id 'v'
    paper_title := item.title
    paper_url := item.entry_id
    paper_abstract := replaceChar item.summary '\n' ' '
    paper_authors := item.authors
    primary_category := item.primary_category
    publish_time := item.published_date
    update_time := item.updated_date
    comments := item.comment
    repo_url := get_repo_url resolved }

/-- The loop body of `get_papers` (lines 260-263) restricted to one topic:
every raw result is normalized, whatever its resolver outcome. -/
def normalizeBatch (items : List (RawResult × ResolverResult)) : List ArXivPaper :=
  items.map (fun ir => makePaper ir.1 ir.2)

/-- Method `ArXivPaper.to_dict` (lines 44-58). -/
def ArXivPaper.to_dict (p : ArXivPaper) : PaperDict :=
  { paper_id := p.paper_id
    code_url := p.code_url
    paper_key := p.paper_key
    paper_title := p.paper_title
    paper_url := p.paper_url
    paper_abstract := p.paper_abstract
    paper_authors := p.paper_authors
    primary_category := p.primary_category
    publish_time := p.publish_time
    update_time := p.update_time
    comments := p.comments
    repo_url := some p.repo_url }

/-- The persisted store: topic name → paper key → stored record. -/
abbrev Store : Type := Dict (Dict PaperDict)

/-- Line 75: `json_data[keyword][paper_item.paper_key] = paper_item.to_dict()`.
The inner dict of `keyword` is updated in place. -/
def storeSetPaper (st : Store) (kw : String) (p : ArXivPaper) : Store :=
  Dict.set st kw (Dict.set (Dict.getD st kw []) p.paper_key p.to_dict)

/-- Lines 70-75: ensure the topic's sub-mapping exists (appending a fresh
empty one when the topic is new), then write every fresh record under its
`paper_key`. -/
def processTopic (st : Store) (kw : String) (items : List ArXivPaper) : Store :=
  let st1 := if Dict.containsKey st kw then st else st ++ [(kw, [])]
  items.foldl (fun st2 p => storeSetPaper st2 kw p) st1

/-- Function `update_json_file` (lines 61-78) as the pure merge it performs between
load and save: fold the fresh batch, topic by topic, into the prior store. -/
def update_json_file (json_data : Store) (papers : List (String × List ArXivPaper)) : Store :=
  papers.foldl (fun st kp => processTopic st kp.1 kp.2) json_data

/-- All fresh records the batch carries under topic `t`, in batch order. -/
def topicRecords (t : String) (papers : List (String × List ArXivPaper)) : List ArXivPaper :=
  ((papers.filter (fun kp => kp.1 == t)).map (fun kp => kp.2)).flatten

/-- The record a fold of topic-`t` writes leaves under key `X`: the last
record of the list whose `paper_key` is `X` (the first of the reversed
list), serialized. -/
def lastWrite (ps : List ArXivPaper) (X : String) : Option PaperDict :=
  (ps.reverse.find? (fun p => p.paper_key == X)).map ArXivPaper.to_dict

/-- Python `store[t][X]` as an option: the merged store's entry for `(t, X)`. -/
def storeLookup (st : Store) (t X : String) : Option PaperDict :=
  (Dict.get? st t).bind (fun d => Dict.get? d X)

/-- The topic keys of the batch that are not yet in `existing`, in first-seen
order. -/
def newTopicKeys (existing : List String) : List (String × List ArXivPaper) → List String
  | [] => []
  | kp :: rest =>
    if existing.contains kp.1 then newTopicKeys existing rest
    else kp.1 :: newTopicKeys (existing ++ [kp.1]) rest

/-- Python `", ".join(l)`. -/
def joinCommaSpace (l : List String) : String :=
  String.intercalate ", " l

/-- The comparison `sorted(..., key=lambda item: item[1]["publish_time"],
reverse=True)` sorts by: an item may come before another exactly when the
other's key is at most its own. -/
def paperLe (a b : String × PaperDict) : Bool :=
  dateLe b.2.publish_time a.2.publish_time

/-- Line 136: `sorted(day_content.items(), key=lambda item:
item[1]["publish_time"], reverse=True)`. Python's sort is stable and
`reverse=True` keeps it stable, so it is the stable descending sort by
`publish_time`; `List.mergeSort` with `paperLe` is exactly that (sortedness
and stability are proved below, and they determine the output uniquely). -/
def sortedPapers (day_content : Dict PaperDict) : Dict PaperDict :=
  day_content.mergeSort paperLe

/-- The first piece of `nav_html` (lines 94-109). -/
def navPart1 (title : String) : String :=
  "
    <nav class=\"navbar navbar-expand-lg navbar-dark bg-primary sticky-top\">
        <div class=\"container\">
            <a class=\"navbar-brand\" href=\"#\">" ++ title ++ "</a>
            <button class=\"navbar-toggler\" type=\"button\" data-bs-toggle=\"collapse\" data-bs-target=\"#navbarContent\">
                <span class=\"navbar-toggler-icon\"></span>
            </button>
            <div class=\"collapse navbar-collapse\" id=\"navbarContent\">
                <div class=\"d-flex align-items-center ms-auto\">
                    <div class=\"dropdown me-3\">
                        <button class=\"btn btn-outline-light dropdown-toggle\" type=\"button\"
                                id=\"topicDropdown\" data-bs-toggle=\"dropdown\" aria-expanded=\"false\">
                            Select Topic
                        </button>
                        <ul class=\"dropdown-menu\" aria-labelledby=\"topicDropdown\">
    "

/-- One dropdown entry (lines 112-116); the first topic is marked active. -/
def navDropdownItem (i : Nat) (keyword : String) : String :=
  "
                            <li><a class=\"dropdown-item " ++
    (if i == 0 then "active" else "") ++
    "\" href=\"#\" onclick=\"showTopic(\x27" ++ keyword ++ "\x27)\">" ++ keyword ++
    "</a></li>
        "

/-- The closing piece of `nav_html` (lines 118-128), carrying the
"Updated on" stamp of the current date. -/
def navPart2 (current_date : String) : String :=
  "
                        </ul>
                    </div>
                    <span class=\"navbar-text\">
                        Updated on " ++ current_date ++ "
                    </span>
                </div>
            </div>
        </div>
    </nav>
    "

/-- The whole `nav_html` accumulation (lines 94-128). -/
def navHtml (title current_date : String) (data : Store) : String :=
  ((List.enum (Dict.keys data)).foldl
    (fun acc ik => acc ++ navDropdownItem ik.1 ik.2) (navPart1 title)) ++
  navPart2 current_date

/-- The `code_link` fragment (lines 140-148): rendered only when
`paper_info.get("repo_url", "#") != "#"`. -/
def codeLink (paper_info : PaperDict) : String :=
  let repo := Option.getD paper_info.repo_url "#"
  if repo != "#" then
    "
                <a href=\"" ++ repo ++ "\" class=\"btn btn-sm btn-success ms-2\" target=\"_blank\">
                    <i class=\"fas fa-code\"></i> Code
                </a>
            "
  else ""

/-- The literal head of a paper card's f-string (lines 150-153), up to the
first interpolation, which is the paper title. -/
def cardHead : String :=
  "
            <div class=\"card mb-3\">
                <div class=\"card-body\">
                    <h5 class=\"card-title\">"

/-- The rest of a paper card's f-string after the interpolated title
(lines 153-180). -/
def cardTail (pk_info : String × PaperDict) : String :=
  let paper_key := pk_info.1
  let paper_info := pk_info.2
  let abstractId := "abstract-" ++ replaceChar paper_key '.' '-'
  "</h5>
                    <div class=\"d-flex flex-wrap gap-2 mb-2 text-muted\">
                        <small>" ++ paper_info.publish_time ++ "</small>
                        <small><i>" ++ joinCommaSpace paper_info.paper_authors ++ "</i></small>
                    </div>

                    <button class=\"btn btn-sm btn-outline-primary mb-2\"
                            type=\"button\"
                            data-bs-toggle=\"collapse\"
                            data-bs-target=\"#" ++ abstractId ++ "\">
                        <i class=\"fas fa-align-left\"></i> Show Abstract
                    </button>

                    <div class=\"collapse\" id=\"" ++ abstractId ++ "\">
                        <div class=\"card card-body bg-light mb-2\">
                            " ++ paper_info.paper_abstract ++ "
                        </div>
                    </div>

                    <div class=\"paper-actions\">
                        <a href=\"" ++ paper_info.paper_url ++ "\" class=\"btn btn-sm btn-primary\" target=\"_blank\">
                            <i class=\"fas fa-file-alt\"></i> arXiv
                        </a>
                        " ++ codeLink paper_info ++ "
                    </div>
                </div>
            </div>
            "

/-- One paper card (lines 138-180): title, date, comma-joined authors,
collapsible abstract, arXiv link and the optional code link. All record
fields are interpolated verbatim; the first interpolation is the title. -/
def paperCard (pk_info : String × PaperDict) : String :=
  cardHead ++ pk_info.2.paper_title ++ cardTail pk_info

/-- One topic section of the content (lines 132-187): papers sorted by
publish time descending, only the first topic displayed. -/
def contentSection (i : Nat) (keyword : String) (day_content : Dict PaperDict) : String :=
  let display := if i == 0 then "" else "display: none;"
  let paper_items := (sortedPapers day_content).map paperCard
  "
        <div id=\"" ++ keyword ++ "\" class=\"topic-content container mt-4\" style=\"" ++ display ++ "\">
            <h2 class=\"mb-4\">" ++ keyword ++ "</h2>
            " ++ String.join paper_items ++ "
        </div>
        "

/-- The `content_html` list (lines 131-187). -/
def contentHtml (data : Store) : List String :=
  (List.enum data).map (fun ikc => contentSection ikc.1 ikc.2.1 ikc.2.2)

/-- The full page template (lines 190-239). -/
def htmlTemplate (title nav content : String) : String :=
  "<!DOCTYPE html>
<html lang=\"en\">
<head>
    <meta charset=\"UTF-8\">
    <meta name=\"viewport\" content=\"width=device-width, initial-scale=1.0\">
    <title>" ++ title ++ "</title>
    <!-- Bootstrap CSS -->
    <link href=\"https://cdn.jsdelivr.net/npm/bootstrap@5.3.0/dist/css/bootstrap.min.css\" rel=\"stylesheet\">
    <!-- Font Awesome -->
    <link href=\"https://cdnjs.cloudflare.com/ajax/libs/font-awesome/6.0.0/css/all.min.css\" rel=\"stylesheet\">
    <style>
        .topic-content \x7b
            padding-top: 20px;
        \x7d
        .navbar \x7b
            box-shadow: 0 2px 10px rgba(0, 0, 0, 0.1);
        \x7d
        .paper-actions \x7b
            margin-top: 10px;
        \x7d
    </style>
</head>
<body>
    " ++ nav ++ "

    " ++ content ++ "

    <!-- Bootstrap JS Bundle with Popper -->
    <script src=\"https://cdn.jsdelivr.net/npm/bootstrap@5.3.0/dist/js/bootstrap.bundle.min.js\"></script>

    <script>
        // Show selected topic and hide others
        function showTopic(topicName) \x7b
            // Hide all topic contents
            document.querySelectorAll(\x27.topic-content\x27).forEach(content => \x7b
                content.style.display = \x27none\x27;
            \x7d);

            // Show selected topic
            document.getElementById(topicName).style.display = \x27\x27;

            // Update dropdown button text
            document.getElementById(\x27topicDropdown\x27).textContent = topicName;

            // Scroll to top
            window.scrollTo(0, 0);
        \x7d
    </script>
</body>
</html>"

/-- Function `json_to_html` (lines 81-243) as a pure function of the file
system (path → parsed store), the requested path, the title, and the ambient
`str(datetime.date.today())`. The `assert` on line 89 is modelled by the
`Except.error` branch carrying the assertion's message; on success the
rendered page text is returned instead of being written to `html_path`. -/
def json_to_html (files : Dict Store) (json_path title today : String) :
    Except String String :=
  let current_date := replaceChar today '-' '.'
  match Dict.get? files json_path with
  | none => Except.error (json_path ++ " does not exist")
  | some data =>
      Except.ok (htmlTemplate title (navHtml title current_date data)
        (String.join (contentHtml data)))

/-- Whether `needle` occurs contiguously inside `hay`. -/
def listContains (needle hay : List Char) : Bool :=
  hay.tails.any (fun t => needle.isPrefixOf t)

/-- Whether an identifier ends in a version marker `vN`: a non-empty run of
trailing digits immediately preceded by the character `v`. -/
def hasVersionSuffix (s : String) : Bool :=
  let rev := s.data.reverse
  let ds := rev.takeWhile (fun c => c.isDigit)
  !ds.isEmpty && ((rev.drop ds.length).head? == some 'v')

/-- Modelled from the spec: the tabular-document renderer required by §4.4
("Tabular-document rendering") is not part of `src/` (only the
navigation-page renderer is), so its row shape is taken from the spec's
words: a fixed five-column table — publish date, title, collapsible
abstract, authors (comma-joined), links (source + code). -/
structure TabRow where
  publishDate : String
  title : String
  abstract : String
  authors : String
  links : String
deriving DecidableEq

/-- Modelled from the spec: the five cells of one record's row. The abstract
cell is collapsible; the links cell carries the source link and a code link
that is always rendered, pointing at `"#"` when the repository link is
unresolved. -/
def tabRowOf (p : PaperDict) : TabRow :=
  { publishDate := p.publish_time
    title := p.paper_title
    abstract := "<details><summary>Abstract</summary>" ++ p.paper_abstract ++ "</details>"
    authors := joinCommaSpace p.paper_authors
    links := "[paper](" ++ p.paper_url ++ ") [code](" ++ Option.getD p.repo_url "#" ++ ")" }

/-- Modelled from the spec: one section of the tabular document — a heading
and the topic's rows. -/
structure TabSection where
  heading : String
  rows : List TabRow
deriving DecidableEq

/-- Modelled from the spec: one section per topic in store iteration order;
within a section the records are sorted by publish date descending with the
same tie-break rule as the navigation page (the same stable sort). -/
def tabularDoc (data : Store) : List TabSection :=
  data.map (fun kv =>
    { heading := kv.1, rows := (sortedPapers kv.2).map (fun e => tabRowOf e.2) })

/-- Modelled from the spec: one rendered table row. -/
def tabRowText (r : TabRow) : String :=
  "| " ++ r.publishDate ++ " | " ++ r.title ++ " | " ++ r.abstract ++ " | " ++
    r.authors ++ " | " ++ r.links ++ " |\n"

/-- Modelled from the spec: one rendered section - heading, the five-column
table header, then the rows. -/
def tabSectionText (s : TabSection) : String :=
  "## " ++ s.heading ++ "\n\n| date | title | abstract | authors | links |\n| --- | --- | --- | --- | --- |\n" ++
    String.join (s.rows.map tabRowText) ++ "\n"

/-- Modelled from the spec: the whole tabular document — a document title
line followed by one section per topic. -/
def json_to_markdown (title : String) (data : Store) : String :=
  "# " ++ title ++ "\n\n" ++ String.join ((tabularDoc data).map tabSectionText)

/-- A concrete normalized record used by witnesses: an earlier fetch whose
repository link resolved to a real URL. -/
def witnessPaperA : ArXivPaper :=
  { paper_id := "2108.09112v1"
    code_url := base_url ++ "2108.09112v1"
    paper_key := "2108.09112"
    paper_title := "A Survey of Things"
    paper_url := "http://arxiv.org/abs/2108.09112v1"
    paper_abstract := "First fetch."
    paper_authors := ["Alice A", "Bob B"]
    primary_category := "cs.CV"
    publish_time := "2024-01-02"
    update_time := "2024-01-02"
    comments := none
    repo_url := "https://github.com/x/y" }

/-- A concrete normalized record used by witnesses: a later fetch of the same
paper whose repository lookup found nothing, so `repo_url` is the sentinel. -/
def witnessPaperB : ArXivPaper :=
  { paper_id := "2108.09112v2"
    code_url := base_url ++ "2108.09112v2"
    paper_key := "2108.09112"
    paper_title := "A Survey of Things"
    paper_url := "http://arxiv.org/abs/2108.09112v2"
    paper_abstract := "Second fetch."
    paper_authors := ["Alice A", "Bob B"]
    primary_category := "cs.CV"
    publish_time := "2024-01-02"
    update_time := "2024-01-09"
    comments := none
    repo_url := "#" }

/-- A stored record whose title contains an active HTML element. -/
def evilRecord : PaperDict :=
  { paper_id := "1111.1v1"
    code_url := "https://arxiv.paperswithcode.com/api/v0/papers/1111.1v1"
    paper_key := "1111.1"
    paper_title := "<script>alert(1)</script>"
    paper_url := "http://arxiv.org/abs/1111.1v1"
    paper_abstract := "An abstract."
    paper_authors := ["Mallory M"]
    primary_category := "cs.CR"
    publish_time := "2024-01-02"
    update_time := "2024-01-02"
    comments := none
    repo_url := some "#" }

/-- The end-to-end scenario sub-mapping of topic "Survey" from the spec's
testable properties: key `1111.1` published 2024-01-02 with the sentinel
repository link, key `2222.2` published 2024-01-05 with a real one. -/
def demoSurveyContent : Dict PaperDict :=
  [("1111.1",
    { paper_id := "1111.1v1"
      code_url := "https://arxiv.paperswithcode.com/api/v0/papers/1111.1v1"
      paper_key := "1111.1"
      paper_title := "Older Survey"
      paper_url := "http://arxiv.org/abs/1111.1v1"
      paper_abstract := "Abs one."
      paper_authors := ["Alice A"]
      primary_category := "cs.CV"
      publish_time := "2024-01-02"
      update_time := "2024-01-02"
      comments := none
      repo_url := some "#" }),
   ("2222.2",
    { paper_id := "2222.2v2"
      code_url := "https://arxiv.paperswithcode.com/api/v0/papers/2222.2v2"
      paper_key := "2222.2"
      paper_title := "Newer Survey"
      paper_url := "http://arxiv.org/abs/2222.2v2"
      paper_abstract := "Abs two."
      paper_authors := ["Carol C"]
      primary_category := "cs.LG"
      publish_time := "2024-01-05"
      update_time := "2024-01-06"
      comments := some "9 pages"
      repo_url := some "https://x" })]

/-- The end-to-end scenario store: just the "Survey" topic. -/
def demoSurveyStore : Store := [("Survey", demoSurveyContent)]

/-- A file system holding one empty persisted store. -/
def demoFiles : Dict Store := [("arxiv-daily.json", [])]

/-- A concrete raw search result used by witnesses. -/
def demoRawResult : RawResult :=
  { short_id := "2108.09112v1"
    title := "A Survey of Things"
    entry_id := "http://arxiv.org/abs/2108.09112v1"
    summary := "First\nfetch."
    authors := ["Alice A", "Bob B"]
    primary_category := "cs.CV"
    published_date := "2024-01-02"
    updated_date := "2024-01-02"
    comment := none }

/-- A stored record whose field mapping lacks the `repo_url` key entirely. -/
def bareRecord : PaperDict := { evilRecord with repo_url := none }

end DailyArxiv

deriving instance DecidableEq for Except

namespace DailyArxiv

lemma charListLe_cons_iff {a b : Char} {as bs : List Char} :
    charListLe (a :: as) (b :: bs) = true ↔
      (a.toNat < b.toNat ∨ (a.toNat = b.toNat ∧ charListLe as bs = true)) := by
  simp only [charListLe]
  by_cases h1 : a.toNat < b.toNat
  · simp [h1]
  · by_cases h2 : b.toNat < a.toNat
    · simp only [if_neg h1, if_pos h2]
      constructor
      · intro h; exact absurd h (by simp)
      · intro h
        rcases h with h | ⟨he, _⟩
        · exact absurd h h1
        · omega
    · have h3 : a.toNat = b.toNat := by omega
      simp [h1, h2, h3]

lemma charListLe_refl : ∀ x : List Char, charListLe x x = true := by
  intro x
  induction x with
  | nil => rfl
  | cons a as ih => exact charListLe_cons_iff.2 (Or.inr ⟨rfl, ih⟩)

lemma charListLe_total : ∀ x y : List Char, (charListLe x y || charListLe y x) = true := by
  intro x
  induction x with
  | nil => intro y; simp [charListLe]
  | cons a as ih =>
    intro y
    cases y with
    | nil => simp [charListLe]
    | cons b bs =>
      by_cases h1 : a.toNat < b.toNat
      · simp [charListLe_cons_iff, h1]
      · by_cases h2 : b.toNat < a.toNat
        · simp [charListLe_cons_iff, h2]
        · have h3 : a.toNat = b.toNat := by omega
          rcases Bool.or_eq_true_iff.1 (ih bs) with h | h
          · exact Bool.or_eq_true_iff.2 (Or.inl (charListLe_cons_iff.2 (Or.inr ⟨h3, h⟩)))
          · exact Bool.or_eq_true_iff.2 (Or.inr (charListLe_cons_iff.2 (Or.inr ⟨h3.symm, h⟩)))

lemma charListLe_trans :
    ∀ x y z : List Char, charListLe x y = true → charListLe y z = true →
      charListLe x z = true := by
  intro x
  induction x with
  | nil => intro y z _ _; rfl
  | cons a as ih =>
    intro y z hxy hyz
    cases y with
    | nil => exact absurd hxy (by simp [charListLe])
    | cons b bs =>
      cases z with
      | nil => exact absurd hyz (by simp [charListLe])
      | cons c cs =>
        rcases charListLe_cons_iff.1 hxy with hab | ⟨hab, hab'⟩ <;>
          rcases charListLe_cons_iff.1 hyz with hbc | ⟨hbc, hbc'⟩
        · exact charListLe_cons_iff.2 (Or.inl (by omega))
        · exact charListLe_cons_iff.2 (Or.inl (by omega))
        · exact charListLe_cons_iff.2 (Or.inl (by omega))
        · exact charListLe_cons_iff.2 (Or.inr ⟨by omega, ih bs cs hab' hbc'⟩)

lemma dateLe_refl (a : String) : dateLe a a = true := charListLe_refl a.data

lemma dateLe_total (a b : String) : (dateLe a b || dateLe b a) = true :=
  charListLe_total a.data b.data

lemma dateLe_trans {a b c : String} (h₁ : dateLe a b = true) (h₂ : dateLe b c = true) :
    dateLe a c = true :=
  charListLe_trans a.data b.data c.data h₁ h₂

lemma paperLe_trans :
    ∀ a b c : String × PaperDict, paperLe a b = true → paperLe b c = true →
      paperLe a c = true :=
  fun _ _ _ h₁ h₂ => dateLe_trans h₂ h₁

lemma paperLe_total : ∀ a b : String × PaperDict, (paperLe a b || paperLe b a) = true :=
  fun a b => dateLe_total b.2.publish_time a.2.publish_time

end DailyArxiv

namespace DailyArxiv

lemma get?_nil {α : Type} (k : String) : Dict.get? ([] : Dict α) k = none := rfl

lemma get?_cons {α : Type} (p : String × α) (d : Dict α) (k : String) :
    Dict.get? (p :: d) k = if p.1 = k then some p.2 else Dict.get? d k := rfl

lemma get?_append {α : Type} (d₁ d₂ : Dict α) (k : String) :
    Dict.get? (d₁ ++ d₂) k = (Dict.get? d₁ k).or (Dict.get? d₂ k) := by
  induction d₁ with
  | nil => simp [Dict.get?]
  | cons p d ih =>
    by_cases h : p.1 = k <;> simp [Dict.get?, h, ih]

lemma get?_set_self {α : Type} (d : Dict α) (k : String) (v : α) :
    Dict.get? (Dict.set d k v) k = some v := by
  induction d with
  | nil => simp [Dict.set, Dict.get?]
  | cons p d ih =>
    by_cases h : p.1 = k <;> simp [Dict.set, Dict.get?, h, ih]

lemma get?_set_other {α : Type} (d : Dict α) (v : α) {k k' : String} (h : k ≠ k') :
    Dict.get? (Dict.set d k v) k' = Dict.get? d k' := by
  induction d with
  | nil => simp [Dict.set, Dict.get?, h]
  | cons p d ih =>
    by_cases hp : p.1 = k
    · simp [Dict.set, Dict.get?, hp, h, ih]
    · by_cases hp' : p.1 = k' <;> simp [Dict.set, Dict.get?, hp, hp', ih, Ne.symm h]

lemma containsKey_set_self {α : Type} (d : Dict α) (k : String) (v : α) :
    Dict.containsKey (Dict.set d k v) k = true := by
  rw [Dict.containsKey, get?_set_self]
  rfl

lemma get?_eq_none_of_not_contains {α : Type} {d : Dict α} {k : String}
    (h : Dict.containsKey d k = false) : Dict.get? d k = none := by
  rw [Dict.containsKey] at h
  cases hg : Dict.get? d k <;> simp [hg] at h ⊢

end DailyArxiv

namespace DailyArxiv

lemma storeLookup_setPaper_same (st : Store) (t X : String) (p : ArXivPaper) :
    storeLookup (storeSetPaper st t p) t X =
      if p.paper_key == X then some p.to_dict else storeLookup st t X := by
  unfold storeLookup storeSetPaper
  rw [get?_set_self, Option.some_bind]
  by_cases hx : p.paper_key = X
  · subst hx
    rw [get?_set_self]
    simp
  · rw [get?_set_other _ _ hx]
    have hb : (p.paper_key == X) = false := by simpa using hx
    rw [hb, if_neg (by simp)]
    unfold Dict.getD
    cases hst : Dict.get? st t <;> simp [Dict.get?]

lemma storeLookup_setPaper_other {kw t : String} (h : kw ≠ t) (st : Store)
    (X : String) (p : ArXivPaper) :
    storeLookup (storeSetPaper st kw p) t X = storeLookup st t X := by
  unfold storeLookup storeSetPaper
  rw [get?_set_other _ _ h]

lemma storeLookup_ensure (st : Store) (kw t X : String) :
    storeLookup (if Dict.containsKey st kw then st else st ++ [(kw, [])]) t X =
      storeLookup st t X := by
  cases hc : Dict.containsKey st kw
  · rw [if_neg Bool.false_ne_true]
    unfold storeLookup
    rw [get?_append]
    cases hst : Dict.get? st t
    · rw [Option.none_or, Option.none_bind]
      by_cases ht : kw = t <;> simp [Dict.get?, ht]
    · rfl
  · simp [hc]

lemma lastWrite_nil (X : String) : lastWrite [] X = none := rfl

lemma lastWrite_cons (p : ArXivPaper) (ps : List ArXivPaper) (X : String) :
    lastWrite (p :: ps) X =
      (lastWrite ps X).or (if p.paper_key == X then some p.to_dict else none) := by
  unfold lastWrite
  rw [List.reverse_cons, List.find?_append]
  cases h : List.find? (fun p => p.paper_key == X) ps.reverse
  · cases hp : p.paper_key == X <;> simp [List.find?, hp, h]
  · simp [h]

lemma lastWrite_append (l₁ l₂ : List ArXivPaper) (X : String) :
    lastWrite (l₁ ++ l₂) X = (lastWrite l₂ X).or (lastWrite l₁ X) := by
  unfold lastWrite
  rw [List.reverse_append, List.find?_append]
  cases h : List.find? (fun p => p.paper_key == X) l₂.reverse <;> simp [h]

lemma lookup_foldl_setPaper (t X : String) :
    ∀ (ps : List ArXivPaper) (st : Store),
      storeLookup (ps.foldl (fun st2 p => storeSetPaper st2 t p) st) t X =
        (lastWrite ps X).or (storeLookup st t X) := by
  intro ps
  induction ps with
  | nil => intro st; rw [List.foldl_nil, lastWrite_nil, Option.none_or]
  | cons p ps ih =>
    intro st
    rw [List.foldl_cons, ih, storeLookup_setPaper_same, lastWrite_cons,
      Option.or_assoc]
    cases hp : p.paper_key == X <;> simp [hp]

lemma lookup_processTopic_same (st : Store) (t X : String) (items : List ArXivPaper) :
    storeLookup (processTopic st t items) t X =
      (lastWrite items X).or (storeLookup st t X) := by
  unfold processTopic
  rw [lookup_foldl_setPaper, storeLookup_ensure]

lemma lookup_processTopic_other {kw t : String} (h : kw ≠ t) (st : Store)
    (X : String) (items : List ArXivPaper) :
    storeLookup (processTopic st kw items) t X = storeLookup st t X := by
  unfold processTopic
  have haux : ∀ (ps : List ArXivPaper) (st' : Store),
      storeLookup (ps.foldl (fun st2 p => storeSetPaper st2 kw p) st') t X =
        storeLookup st' t X := by
    intro ps
    induction ps with
    | nil => intro st'; rfl
    | cons p ps ih =>
      intro st'
      rw [List.foldl_cons, ih, storeLookup_setPaper_other h]
  rw [haux, storeLookup_ensure]

lemma topicRecords_nil (t : String) : topicRecords t [] = [] := rfl

lemma topicRecords_cons (t : String) (kp : String × List ArXivPaper)
    (B : List (String × List ArXivPaper)) :
    topicRecords t (kp :: B) =
      if kp.1 == t then kp.2 ++ topicRecords t B else topicRecords t B := by
  unfold topicRecords
  cases h : kp.1 == t <;> simp [List.filter_cons, h]

lemma lookup_update (t X : String) :
    ∀ (B : List (String × List ArXivPaper)) (st : Store),
      storeLookup (update_json_file st B) t X =
        (lastWrite (topicRecords t B) X).or (storeLookup st t X) := by
  intro B
  induction B with
  | nil => intro st; rw [topicRecords_nil, lastWrite_nil, Option.none_or]; rfl
  | cons kp B ih =>
    intro st
    have hstep : update_json_file st (kp :: B) =
        update_json_file (processTopic st kp.1 kp.2) B := by
      unfold update_json_file
      rw [List.foldl_cons]
    rw [hstep, ih, topicRecords_cons]
    cases hkt : kp.1 == t
    · have hne : kp.1 ≠ t := by simpa using hkt
      rw [lookup_processTopic_other hne, if_neg (by simp)]
    · have heq : kp.1 = t := by simpa using hkt
      subst heq
      rw [lookup_processTopic_same, if_pos rfl, lastWrite_append, Option.or_assoc]

end DailyArxiv

namespace DailyArxiv

lemma keys_append {α : Type} (d₁ d₂ : Dict α) :
    Dict.keys (d₁ ++ d₂) = Dict.keys d₁ ++ Dict.keys d₂ := by
  simp [Dict.keys]

lemma keys_set {α : Type} (d : Dict α) (k : String) (v : α) :
    Dict.keys (Dict.set d k v) =
      if Dict.containsKey d k then Dict.keys d else Dict.keys d ++ [k] := by
  induction d with
  | nil => simp [Dict.set, Dict.keys, Dict.containsKey, Dict.get?]
  | cons p d ih =>
    by_cases hp : p.1 = k
    · simp [Dict.set, Dict.keys, Dict.containsKey, Dict.get?, hp]
    · have hcc : Dict.containsKey (p :: d) k = Dict.containsKey d k := by
        simp [Dict.containsKey, Dict.get?, hp]
      simp only [Dict.set, if_neg hp, Dict.keys, List.map_cons, hcc]
      simp only [Dict.keys] at ih
      by_cases hc : Dict.containsKey d k = true
      · rw [if_pos hc] at ih
        rw [if_pos hc, ih]
      · rw [if_neg hc] at ih
        rw [if_neg hc, ih, List.cons_append]

lemma keys_setPaper {st : Store} {kw : String} (h : Dict.containsKey st kw = true)
    (p : ArXivPaper) : Dict.keys (storeSetPaper st kw p) = Dict.keys st := by
  unfold storeSetPaper
  rw [keys_set, if_pos h]

lemma containsKey_setPaper_self (st : Store) (kw : String) (p : ArXivPaper) :
    Dict.containsKey (storeSetPaper st kw p) kw = true :=
  containsKey_set_self st kw _

lemma keys_foldl_setPaper {kw : String} :
    ∀ (ps : List ArXivPaper) (st : Store), Dict.containsKey st kw = true →
      Dict.keys (ps.foldl (fun st2 p => storeSetPaper st2 kw p) st) = Dict.keys st := by
  intro ps
  induction ps with
  | nil => intro st _; rfl
  | cons p ps ih =>
    intro st h
    rw [List.foldl_cons, ih _ (containsKey_setPaper_self st kw p), keys_setPaper h]

lemma containsKey_append_fresh {st : Store} {kw : String}
    (hc : Dict.containsKey st kw = false) :
    Dict.containsKey (st ++ [(kw, [])]) kw = true := by
  rw [Dict.containsKey, get?_append, get?_eq_none_of_not_contains hc, Option.none_or]
  simp [Dict.get?]

lemma keys_processTopic (st : Store) (kw : String) (items : List ArXivPaper) :
    Dict.keys (processTopic st kw items) =
      Dict.keys st ++ (if Dict.containsKey st kw then [] else [kw]) := by
  unfold processTopic
  cases hc : Dict.containsKey st kw
  · rw [if_neg Bool.false_ne_true, if_neg Bool.false_ne_true,
      keys_foldl_setPaper _ _ (containsKey_append_fresh hc), keys_append]
    simp [Dict.keys]
  · rw [if_pos rfl, if_pos rfl, keys_foldl_setPaper _ _ hc, List.append_nil]

lemma contains_keys_eq (st : Store) (kw : String) :
    (Dict.keys st).contains kw = Dict.containsKey st kw := by
  induction st with
  | nil => rfl
  | cons p d ih =>
    by_cases hp : p.1 = kw <;>
      simp [Dict.keys, Dict.containsKey, Dict.get?, hp, List.contains_cons] <;>
      simp [Dict.containsKey] at ih <;> simp [Dict.keys] at ih <;>
      simp [ih, Ne.symm hp]

end DailyArxiv

namespace DailyArxiv

/-- C6: in the navigation-page rendering, within every topic the records are
ordered by `publishDate` descending (each rendered item's publish time is at
least every later one's), and records with identical `publishDate` keep
their relative sub-mapping order: the sort is stable and uses no secondary
key, so for every date the equal-dated records appear in exactly their
original order. -/
theorem nav_sort_desc_and_stable :
    ∀ day_content : Dict PaperDict,
      List.Pairwise (fun a b => paperLe a b = true) (sortedPapers day_content) ∧
      ∀ k : String,
        (sortedPapers day_content).filter (fun kv => kv.2.publish_time == k) =
          day_content.filter (fun kv => kv.2.publish_time == k) := by
  intro d
  constructor
  · exact List.sorted_mergeSort paperLe_trans paperLe_total d
  · intro k
    have hmem : ∀ x ∈ d.filter (fun kv => kv.2.publish_time == k),
        (x.2.publish_time == k) = true := fun x hx => (List.mem_filter.1 hx).2
    have hpair : List.Pairwise (fun a b => paperLe a b = true)
        (d.filter (fun kv => kv.2.publish_time == k)) := by
      apply List.pairwise_of_forall_mem_list
      intro a ha b hb
      have ha' : a.2.publish_time = k := eq_of_beq (hmem a ha)
      have hb' : b.2.publish_time = k := eq_of_beq (hmem b hb)
      unfold paperLe
      rw [hb', ha']
      exact dateLe_refl k
    have hsub : (d.filter (fun kv => kv.2.publish_time == k)).Sublist
        (d.mergeSort paperLe) :=
      List.sublist_mergeSort paperLe_trans paperLe_total hpair (List.filter_sublist d)
    have hperm : ((d.mergeSort paperLe).filter (fun kv => kv.2.publish_time == k)).Perm
        (d.filter (fun kv => kv.2.publish_time == k)) :=
      (List.mergeSort_perm d paperLe).filter _
    have hsub2 : (d.filter (fun kv => kv.2.publish_time == k)).Sublist
        ((d.mergeSort paperLe).filter (fun kv => kv.2.publish_time == k)) := by
      have h1 := List.Sublist.filter (fun kv => kv.2.publish_time == k) hsub
      rwa [List.filter_eq_self.2 hmem] at h1
    exact (List.Sublist.eq_of_length hsub2 hperm.length_eq.symm).symm

/-- C5 (counterexample): the identifier `solv-int/9701001` carries no
trailing version marker, yet the normalizer's key derivation
(`paper_id.split("v")[0]`) truncates it at the `v` of `solv-int`, so
`paperKey` is not the whole identifier as the claim states. -/
theorem paper_key_counterexample :
    hasVersionSuffix "solv-int/9701001" = false ∧
      takeUntilChar "solv-int/9701001" 'v' ≠ "solv-int/9701001" := by
  constructor
  · decide
  · decide

/-- C5 (amended): `paperKey` is the prefix of `paperId` before its first
`v`. On the expected identifier shape — a stem containing no `v`, optionally
followed by a trailing `vN` marker — this strips the marker
(`2108.09112v1 ↦ 2108.09112`) and leaves marker-free identifiers unchanged;
an identifier with a `v` elsewhere is truncated at that `v` instead. -/
theorem paper_key_amended :
    takeUntilChar "2108.09112v1" 'v' = "2108.09112" ∧
    (∀ s : String, (∀ c ∈ s.data, c ≠ 'v') → takeUntilChar s 'v' = s) ∧
    (∀ stem vn : String, (∀ c ∈ stem.data, c ≠ 'v') →
      takeUntilChar (stem ++ "v" ++ vn) 'v' = stem) := by
  refine ⟨by decide, ?_, ?_⟩
  · intro s h
    apply String.ext
    show s.data.takeWhile (fun c => c != 'v') = s.data
    exact List.takeWhile_eq_self_iff.2 (fun c hc => by simpa using h c hc)
  · intro stem vn h
    apply String.ext
    show (stem ++ "v" ++ vn).data.takeWhile (fun c => c != 'v') = stem.data
    have hself : stem.data.takeWhile (fun c => c != 'v') = stem.data :=
      List.takeWhile_eq_self_iff.2 (fun c hc => by simpa using h c hc)
    rw [String.data_append, String.data_append,
      show ("v" : String).data = ['v'] from rfl, List.append_assoc,
      List.singleton_append, List.takeWhile_append, if_pos (by rw [hself])]
    simp [List.takeWhile_cons]

/-- C5 (witness for the amended claim): instantiating at the marker-free
stem `2108.09112` and the version tail `1`. -/
theorem paper_key_amended_witness :
    takeUntilChar "2108.09112" 'v' = "2108.09112" ∧
      takeUntilChar ("2108.09112" ++ "v" ++ "1") 'v' = "2108.09112" :=
  ⟨paper_key_amended.2.1 "2108.09112" (by decide),
   paper_key_amended.2.2 "2108.09112" "1" (by decide)⟩

/-- C8: whatever way the repository lookup fails — a raised exception, a
response without an `"official"` field, a falsy one, or one whose `"url"`
access itself raises — the normalized record's `repo_url` is the sentinel
`"#"`; and the batch always normalizes every record (the loop never aborts:
one output record per input result, failures included). -/
theorem resolver_failure_is_sentinel :
    (∀ (item : RawResult) (r : ResolverResult),
        r = ResolverResult.failure ∨ r = ResolverResult.missingOfficial ∨
          r = ResolverResult.falsyOfficial ∨ r = ResolverResult.malformedOfficial →
        (makePaper item r).repo_url = "#") ∧
    ∀ items : List (RawResult × ResolverResult),
      (normalizeBatch items).length = items.length := by
  constructor
  · intro item r h
    rcases h with h | h | h | h <;> subst h <;> rfl
  · intro items
    simp [normalizeBatch]

/-- C8 (witness): a failed lookup for a concrete record yields `"#"`. -/
theorem resolver_failure_is_sentinel_witness :
    (makePaper demoRawResult ResolverResult.failure).repo_url = "#" :=
  resolver_failure_is_sentinel.1 demoRawResult ResolverResult.failure (Or.inl rfl)

/-- C9: when the store file is absent, `json_to_html` stops with the
assertion's diagnostic naming the missing path, and no document is
produced. -/
theorem render_requires_store :
    ∀ (files : Dict Store) (json_path title today : String),
      Dict.get? files json_path = none →
      json_to_html files json_path title today =
        Except.error (json_path ++ " does not exist") := by
  intro files path title today h
  simp [json_to_html, h]

/-- C9 (witness): rendering against an empty file system fails with the
diagnostic for the requested path. -/
theorem render_requires_store_witness :
    json_to_html [] "arxiv-daily.json" "Daily ArXiv Papers" "2026-10-12" =
      Except.error ("arxiv-daily.json" ++ " does not exist") :=
  render_requires_store [] "arxiv-daily.json" "Daily ArXiv Papers" "2026-10-12" rfl

/-- C10: a stored record whose mapping lacks the `repo_url` key renders
without failing, and its card is exactly the card of the same record with
`repo_url` equal to the sentinel `"#"`: the arXiv link but no code link
(`paper_info.get("repo_url", "#")` defaults the missing key to `"#"`). -/
theorem missing_repo_key_renders_as_sentinel :
    ∀ (pk : String) (info : PaperDict), info.repo_url = none →
      paperCard (pk, info) = paperCard (pk, { info with repo_url := some "#" }) := by
  intro pk info h
  simp [paperCard, cardTail, codeLink, h]

/-- C10 (witness): the record without the key and the record with the
sentinel produce the same card. -/
theorem missing_repo_key_renders_as_sentinel_witness :
    paperCard ("1111.1", bareRecord) =
      paperCard ("1111.1", { bareRecord with repo_url := some "#" }) :=
  missing_repo_key_renders_as_sentinel "1111.1" bareRecord rfl

end DailyArxiv

namespace DailyArxiv

set_option maxRecDepth 10000 in
/-- C3 (the code violates the claim): the navigation-page renderer
interpolates the record's title verbatim — the card's characters contain the
title's characters unchanged, with no escaping — so a title containing
`<script>alert(1)</script>` puts that active element, byte for byte, into
the rendered page. -/
theorem title_embedded_unescaped :
    (∀ pk_info : String × PaperDict,
      ∃ pre post : List Char,
        (paperCard pk_info).data = pre ++ pk_info.2.paper_title.data ++ post) ∧
    listContains ("<script>alert(1)</script>".data)
        ((paperCard ("1111.1", evilRecord)).data) = true := by
  constructor
  · intro pk_info
    refine ⟨cardHead.data, (cardTail pk_info).data, ?_⟩
    simp [paperCard, String.data_append]
  · decide

/-- C7: merging preserves topic order — the merged store's topic keys are
the prior store's keys followed by the batch's new topics in first-seen
order; in particular a store with topics `[T1, T2]` merged with a batch
introducing `T3` has topic order `[T1, T2, T3]`. -/
theorem topic_order_preserved :
    (∀ (prior : Store) (batch : List (String × List ArXivPaper)),
      Dict.keys (update_json_file prior batch) =
        Dict.keys prior ++ newTopicKeys (Dict.keys prior) batch) ∧
    Dict.keys (update_json_file [("T1", []), ("T2", [])] [("T3", [witnessPaperB])]) =
      ["T1", "T2", "T3"] := by
  constructor
  · intro prior batch
    induction batch generalizing prior with
    | nil => simp [update_json_file, newTopicKeys]
    | cons kp rest ih =>
      have hstep : update_json_file prior (kp :: rest) =
          update_json_file (processTopic prior kp.1 kp.2) rest := by
        unfold update_json_file
        rw [List.foldl_cons]
      rw [hstep, ih, keys_processTopic]
      show _ = _ ++ newTopicKeys _ (kp :: rest)
      rw [newTopicKeys, contains_keys_eq]
      cases hc : Dict.containsKey prior kp.1
      · rw [if_neg Bool.false_ne_true, if_neg Bool.false_ne_true]
        simp [List.append_assoc]
      · rw [if_pos rfl, if_pos rfl, List.append_nil]
  · rfl

/-- C1: merge is last-write-wins per `(topic, paperKey)`. Whatever the prior
store and whatever an earlier batch `A` wrote, after merging batch `B` the
entry at `(t, X)` is exactly the serialization of the last record of `B`
under topic `t` whose `paper_key` is `X` — including its `repo_url`, sentinel
or not; and writing one fresh record unconditionally overwrites any existing
entry for its key. -/
theorem merge_last_write_wins :
    (∀ (prior : Store) (A B : List (String × List ArXivPaper)) (t X : String)
        (pB : ArXivPaper),
      (topicRecords t B).reverse.find? (fun p => p.paper_key == X) = some pB →
      storeLookup (update_json_file (update_json_file prior A) B) t X =
        some pB.to_dict) ∧
    ∀ (st : Store) (t : String) (p : ArXivPaper),
      storeLookup (storeSetPaper st t p) t p.paper_key = some p.to_dict := by
  constructor
  · intro prior A B t X pB h
    rw [lookup_update]
    have hl : lastWrite (topicRecords t B) X = some pB.to_dict := by
      unfold lastWrite
      rw [h]
      rfl
    rw [hl]
    rfl
  · intro st t p
    rw [storeLookup_setPaper_same]
    simp

/-- C1 (witness): batch `A` resolves the repository of paper `2108.09112`
to a real URL, batch `B` re-fetches it with the `"#"` sentinel; after
merging `A` then `B` into an empty store the entry is `B`'s record, sentinel
included. -/
theorem merge_last_write_wins_witness :
    ((topicRecords "Survey" [("Survey", [witnessPaperB])]).reverse.find?
        (fun p => p.paper_key == "2108.09112") = some witnessPaperB) ∧
      storeLookup
        (update_json_file (update_json_file [] [("Survey", [witnessPaperA])])
          [("Survey", [witnessPaperB])]) "Survey" "2108.09112" =
        some witnessPaperB.to_dict :=
  ⟨by decide,
   merge_last_write_wins.1 [] [("Survey", [witnessPaperA])]
     [("Survey", [witnessPaperB])] "Survey" "2108.09112" witnessPaperB (by decide)⟩

end DailyArxiv

namespace DailyArxiv

lemma str_append_cancel_left {a b c : String} (h : a ++ b = a ++ c) : b = c := by
  apply String.ext
  have hd := congrArg String.data h
  rw [String.data_append, String.data_append] at hd
  exact List.append_cancel_left hd

lemma str_append_cancel_right {a b c : String} (h : a ++ b = c ++ b) : a = c := by
  apply String.ext
  have hd := congrArg String.data h
  rw [String.data_append, String.data_append] at hd
  exact List.append_cancel_right hd

/-- C2 (settled against the spec-modelled tabular renderer): the tabular
document has one section per topic in store iteration order (the section
headings are exactly the store's keys, in order); within every section the
rows are sorted by publish date descending; every section's rows are the
stable-sorted records of its topic rendered into five-cell rows; every row's
links cell carries a code link, pointing at the record's repository URL with
`"#"` when the stored link is absent or the sentinel; and the rendered text
is the title line followed by the rendered sections. -/
theorem tabular_rendering :
    ∀ (data : Store) (title : String),
      ((tabularDoc data).map TabSection.heading = Dict.keys data) ∧
      (∀ s, s ∈ tabularDoc data →
        List.Pairwise (fun a b : TabRow => dateLe b.publishDate a.publishDate = true)
          s.rows) ∧
      (∀ kv, kv ∈ data →
        TabSection.mk kv.1 ((sortedPapers kv.2).map (fun e => tabRowOf e.2)) ∈
          tabularDoc data) ∧
      (∀ p : PaperDict, (tabRowOf p).links =
        "[paper](" ++ p.paper_url ++ ") [code](" ++ Option.getD p.repo_url "#" ++ ")") ∧
      (json_to_markdown title data =
        "# " ++ title ++ "\n\n" ++ String.join ((tabularDoc data).map tabSectionText)) := by
  intro data title
  refine ⟨?_, ?_, ?_, fun p => rfl, rfl⟩
  · simp [tabularDoc, Dict.keys, List.map_map, Function.comp]
  · intro s hs
    rcases List.mem_map.1 hs with ⟨kv, _, rfl⟩
    apply List.pairwise_map.2
    have hsorted : List.Pairwise (fun a b => paperLe a b = true) (sortedPapers kv.2) :=
      List.sorted_mergeSort paperLe_trans paperLe_total kv.2
    exact hsorted
  · intro kv hkv
    exact List.mem_map_of_mem _ hkv

/-- C2 (witness): on the end-to-end scenario store the "Survey" section is a
member of the tabular document and its rows are sorted by publish date
descending (so the `2222.2` row precedes the `1111.1` row). -/
theorem tabular_rendering_witness :
    (TabSection.mk "Survey" ((sortedPapers demoSurveyContent).map (fun e => tabRowOf e.2)) ∈
        tabularDoc demoSurveyStore) ∧
      List.Pairwise (fun a b : TabRow => dateLe b.publishDate a.publishDate = true)
        (TabSection.mk "Survey"
          ((sortedPapers demoSurveyContent).map (fun e => tabRowOf e.2))).rows := by
  have hmem := (tabular_rendering demoSurveyStore "Daily ArXiv Papers").2.2.1
    ("Survey", demoSurveyContent) (by simp [demoSurveyStore])
  exact ⟨hmem, (tabular_rendering demoSurveyStore "Daily ArXiv Papers").2.1 _ hmem⟩

/-- C4 (amended): rendering is deterministic for a fixed store, fixed
options and a fixed current date — any two renderings produced from the same
inputs on the same day are identical; the page embeds today's date, so runs
on different days differ (see the accompanying counterexample). -/
theorem render_deterministic_given_date :
    ∀ (files : Dict Store) (json_path title today : String)
      (o₁ o₂ : Except String String),
      o₁ = json_to_html files json_path title today →
      o₂ = json_to_html files json_path title today → o₁ = o₂ := by
  intro _ _ _ _ _ _ h₁ h₂
  rw [h₁, h₂]

/-- C4 (witness for the amended claim): two renderings of the empty store on
2026-10-12 agree. -/
theorem render_deterministic_given_date_witness :
    json_to_html demoFiles "arxiv-daily.json" "Daily ArXiv Papers" "2026-10-12" =
      json_to_html demoFiles "arxiv-daily.json" "Daily ArXiv Papers" "2026-10-12" :=
  render_deterministic_given_date demoFiles "arxiv-daily.json" "Daily ArXiv Papers"
    "2026-10-12" _ _ rfl rfl

/-- C4 (counterexample to the claim as stated): the same store rendered with
the same title on 2026-10-12 and on 2026-10-13 produces different bytes —
the navigation bar's "Updated on" stamp embeds the ambient current date,
which is not part of the store or the render options. -/
theorem render_depends_on_date :
    json_to_html demoFiles "arxiv-daily.json" "Daily ArXiv Papers" "2026-10-12" ≠
      json_to_html demoFiles "arxiv-daily.json" "Daily ArXiv Papers" "2026-10-13" := by
  intro h
  have h1 : htmlTemplate "Daily ArXiv Papers"
      (navHtml "Daily ArXiv Papers" (replaceChar "2026-10-12" '-' '.') [])
      (String.join (contentHtml [])) =
    htmlTemplate "Daily ArXiv Papers"
      (navHtml "Daily ArXiv Papers" (replaceChar "2026-10-13" '-' '.') [])
      (String.join (contentHtml [])) := Except.ok.inj h
  have h2 : navHtml "Daily ArXiv Papers" (replaceChar "2026-10-12" '-' '.') [] =
      navHtml "Daily ArXiv Papers" (replaceChar "2026-10-13" '-' '.') [] := by
    unfold htmlTemplate at h1
    exact str_append_cancel_left
      (str_append_cancel_right (str_append_cancel_right (str_append_cancel_right h1)))
  have h3 : navPart1 "Daily ArXiv Papers" ++ navPart2 (replaceChar "2026-10-12" '-' '.') =
      navPart1 "Daily ArXiv Papers" ++ navPart2 (replaceChar "2026-10-13" '-' '.') := h2
  have h4 : navPart2 (replaceChar "2026-10-12" '-' '.') =
      navPart2 (replaceChar "2026-10-13" '-' '.') := str_append_cancel_left h3
  unfold navPart2 at h4
  have h5 : replaceChar "2026-10-12" '-' '.' = replaceChar "2026-10-13" '-' '.' :=
    str_append_cancel_left (str_append_cancel_right h4)
  exact absurd h5 (by decide)

end DailyArxiv
